import Mathlib

/-!
Verification development for the Jira customer-service workflow repository.

The repository contains two orchestrator variants:

* `JiraCSServer` (src/JiraCSServer/src/workflow/state.ts and orchestrator.ts,
  together with the agents in src/unnamed/part_001..part_003): a LangGraph
  `StateGraph` over `WorkflowStateAnnotation`, with per-channel reducers.
* `JiraCSAgent` (src/jiraCSAgent/src/lib/workflow/orchestrator-langgraph.ts):
  a hand-rolled engine with a node map, static edges, conditional edges and a
  `maxSteps = 10` loop in `processEmail`.

Both are embedded shallowly below.  External generative-model calls are
nondeterministic; each stage that performs one is parameterised by an oracle
value holding the outcome of that call (either a structured result or a thrown
error), and theorems quantify over oracles.  Wall-clock timestamps are
modelled by a `Nat` clock threaded through the execution: each step stamps the
history entries it creates with the current clock value and advances the
clock, which reflects the strictly sequential execution of stages within one
run.  JSON snapshot payloads inside history entries, the free-form `metadata`
channel and the message log contents are not read by any property below and
are omitted from the records.
-/

namespace JiraCSServer

/-- Input record, from `JiraIssueInput` (flattened `forms`). -/
structure JiraIssueInput where
  project_id : String
  issue_type : String
  reporter : String
  created : String
  summary : String
  comment_content : String
deriving DecidableEq, Repr

/-- Classification result, from `ClassificationResult`. -/
structure ClassificationResult where
  category : String
  confidence : ℚ
  reasoning : String
  key_indicators : List String
deriving DecidableEq, Repr

/-- Per-criterion quality scores, from `QualityAssessment.criteria`. -/
structure QualityCriteria where
  relevance : ℚ
  completeness : ℚ
  tone : ℚ
  actionability : ℚ
  accuracy : ℚ
deriving DecidableEq, Repr

/-- Quality assessment, from `QualityAssessment` (README / types). -/
structure QualityAssessment where
  score : ℚ
  criteria : QualityCriteria
  feedback : String
  requires_improvement : Bool
  improvement_suggestions : List String
deriving DecidableEq, Repr

/-- Final output record, from `JiraResponse`. -/
structure JiraResponse where
  issue_key : String
  source : String
  comment_content : String
deriving DecidableEq, Repr

/-- One audit-trail entry, from `ProcessingStep`.  The `input`/`output`
snapshots are opaque to every property below and are omitted; `timestamp`
abstracts the ISO timestamp as a clock value. -/
structure ProcessingStep where
  step_name : String
  agent_name : String
  timestamp : Nat
  success : Bool
  error : Option String
deriving DecidableEq, Repr

/-- The workflow state, one field per channel of `WorkflowStateAnnotation`
(state.ts).  Channels that may be unset are `Option`; channels with a
`default` carry their default in `initialState`. -/
structure WorkflowState where
  original_request : Option JiraIssueInput
  classification : Option ClassificationResult
  processing_history : List ProcessingStep
  current_response : String
  quality_score : Option ℚ
  quality_feedback : Option String
  quality_assessment : Option QualityAssessment
  final_output : Option JiraResponse
  current_agent : String
  retry_count : Nat
  max_retries : Nat
  next_action : String
  workflow_id : Option String
  started_at : Option Nat
  completed_at : Option Nat
  error_message : Option String
  has_error : Bool
deriving DecidableEq, Repr

/-- A partial state update returned by a node
(`Partial<typeof WorkflowStateAnnotation.State>`).  `none` means the channel
is absent from the patch; `error_message` can be explicitly set to
`undefined` (`incrementRetry` does), hence its doubled `Option`. -/
structure StatePatch where
  classification : Option ClassificationResult := none
  processing_history : List ProcessingStep := []
  current_response : Option String := none
  quality_score : Option ℚ := none
  quality_feedback : Option String := none
  quality_assessment : Option QualityAssessment := none
  final_output : Option JiraResponse := none
  current_agent : Option String := none
  retry_count : Option Nat := none
  max_retries : Option Nat := none
  next_action : Option String := none
  completed_at : Option Nat := none
  error_message : Option (Option String) := none
  has_error : Option Bool := none
deriving DecidableEq, Repr

/-- The reducer `(existing, update) => update || existing` of the string
channels `current_response`, `current_agent`, `next_action`: an empty string
is falsy in JavaScript, so it never overwrites the existing value. -/
def lwwString (existing : String) (update : Option String) : String :=
  match update with
  | some u => if u = "" then existing else u
  | none => existing

/-- Merge a node patch into a state, channel by channel, exactly following
the reducers declared in `WorkflowStateAnnotation` (state.ts):
`processing_history` concatenates, the string channels use `update ||
existing`, `retry_count` / `max_retries` / `has_error` use
`update !== undefined ? update : existing`, and the reducer-less channels
are replaced when the patch carries them. -/
def mergeState (s : WorkflowState) (p : StatePatch) : WorkflowState :=
  { original_request := s.original_request
    classification := p.classification.orElse (fun _ => s.classification)
    processing_history := s.processing_history ++ p.processing_history
    current_response := lwwString s.current_response p.current_response
    quality_score := p.quality_score.orElse (fun _ => s.quality_score)
    quality_feedback := p.quality_feedback.orElse (fun _ => s.quality_feedback)
    quality_assessment := p.quality_assessment.orElse (fun _ => s.quality_assessment)
    final_output := p.final_output.orElse (fun _ => s.final_output)
    current_agent := lwwString s.current_agent p.current_agent
    retry_count := p.retry_count.getD s.retry_count
    max_retries := p.max_retries.getD s.max_retries
    next_action := lwwString s.next_action p.next_action
    workflow_id := s.workflow_id
    started_at := s.started_at
    completed_at := p.completed_at.orElse (fun _ => s.completed_at)
    error_message := p.error_message.getD s.error_message
    has_error := p.has_error.getD s.has_error }

/-- `WorkflowStateUtils.createInitialState` merged into the channel defaults:
only `original_request`, `workflow_id` and `started_at` are set; counters and
flags take the defaults declared in the annotation (`retry_count = 0`,
`max_retries = 3`, `has_error = false`, empty strings and lists). -/
def initialState (req : JiraIssueInput) (wid : String) (t : Nat) : WorkflowState :=
  { original_request := some req
    classification := none
    processing_history := []
    current_response := ""
    quality_score := none
    quality_feedback := none
    quality_assessment := none
    final_output := none
    current_agent := ""
    retry_count := 0
    max_retries := 3
    next_action := ""
    workflow_id := some wid
    started_at := some t
    completed_at := none
    error_message := none
    has_error := false }

/-- `WorkflowStateUtils.shouldRetry`. -/
def shouldRetry (s : WorkflowState) : Bool :=
  s.retry_count < s.max_retries && s.has_error

/-- `WorkflowStateUtils.incrementRetry`: bump the counter, clear the error
flag and explicitly clear `error_message`. -/
def incrementRetry (s : WorkflowState) : StatePatch :=
  { retry_count := some (s.retry_count + 1)
    has_error := some false
    error_message := some none }

/-- `WorkflowStateUtils.extractSourceFromComment`: first 20 characters. -/
def extractSourceFromComment (comment : String) : String :=
  String.mk (comment.toList.take 20)

/-- `WorkflowStateUtils.buildJiraResponse`: `null` when `current_response`
is empty (falsy) or the original request is missing. -/
def buildJiraResponse (s : WorkflowState) : Option JiraResponse :=
  if s.current_response = "" then none
  else
    match s.original_request with
    | none => none
    | some req =>
        some { issue_key := req.project_id
               source := extractSourceFromComment req.comment_content
               comment_content := s.current_response }

/-- Outcome of the generative call inside a handler agent
(part_001..part_003: `LoginHandlerAgent.handle` and the structurally
identical complex/general handlers): either a parsed `AgentOutput` (of which
only `response_content` reaches the state) or a thrown error. -/
inductive HandlerOutcome where
  | success (response_content : String)
  | failure (msg : String)
deriving DecidableEq, Repr

/-- Outcome of the generative call inside `QualityEvaluatorAgent.evaluate`. -/
inductive QualityOutcome where
  | success (assessment : QualityAssessment)
  | failure (msg : String)
deriving DecidableEq, Repr

/-- Outcome of the classifier stage call. -/
inductive ClassifyOutcome where
  | success (c : ClassificationResult) (next : String)
  | failure (msg : String)
deriving DecidableEq, Repr

/-- Outcome of `JiraApiClient.sendResponse` inside `sendToJiraNode`:
a successful API response, an unsuccessful one, or a thrown error (the
latter two produce the same patch shape). -/
inductive SendOutcome where
  | success
  | failure (msg : String)
deriving DecidableEq, Repr

/-- The patch returned by a handler node, shared by
`LoginHandlerAgent.handle`, `ComplexHandlerAgent.handle` and
`GeneralHandlerAgent.handle` (part_003 / part_002 / part_001): on success the
draft response, one history entry and `next_action = quality_evaluation`; on
failure one failed history entry and the error flag, with `current_response`
left untouched. -/
def handlerNode (stepName agentName : String) (o : HandlerOutcome) (t : Nat) : StatePatch :=
  match o with
  | .success content =>
      { processing_history := [⟨stepName, agentName, t, true, none⟩]
        current_response := some content
        current_agent := some agentName
        next_action := some "quality_evaluation" }
  | .failure msg =>
      { processing_history := [⟨stepName, agentName, t, false, some msg⟩]
        error_message := some (some (stepName ++ " failed: " ++ msg))
        has_error := some true }

/-- Modelled from the spec: the classifier agent source
(src/agents/classifier.ts of JiraCSServer) is not present under src/; only
its export and its caller `classifyNode` are.  Following spec sections 3 and
4.1, the classifier writes `classification`, appends one history entry and
sets the routing cursor `next_action`; a failed underlying call is fatal for
the request (error flag set).  It writes none of `retry_count`,
`max_retries`, `current_response` or `quality_assessment`. -/
def classifyNode (o : ClassifyOutcome) (t : Nat) : StatePatch :=
  match o with
  | .success c next =>
      { classification := some c
        processing_history := [⟨"classification", "ProblemClassificationAgent", t, true, none⟩]
        current_agent := some "ProblemClassificationAgent"
        next_action := some next }
  | .failure msg =>
      { processing_history := [⟨"classification", "ProblemClassificationAgent", t, false, some msg⟩]
        error_message := some (some ("Classification failed: " ++ msg))
        has_error := some true }

/-- `QualityEvaluatorAgent.evaluate` (part_003): throws when
`current_response` is empty, otherwise records the assessment and sets
`next_action` from the assessment `requires_improvement` flag alone. -/
def qualityEvaluationNode (s : WorkflowState) (o : QualityOutcome) (t : Nat) : StatePatch :=
  if s.current_response = "" then
    { processing_history :=
        [⟨"quality_evaluation", "QualityEvaluatorAgent", t, false, some "No response to evaluate"⟩]
      error_message := some (some "Quality evaluation failed: No response to evaluate")
      has_error := some true }
  else
    match o with
    | .success a =>
        { quality_assessment := some a
          quality_score := some a.score
          quality_feedback := some a.feedback
          processing_history :=
            [⟨"quality_evaluation", "QualityEvaluatorAgent", t, true, none⟩]
          current_agent := some "QualityEvaluatorAgent"
          next_action :=
            some (if a.requires_improvement then "improve_response" else "finalize_response") }
    | .failure msg =>
        { processing_history :=
            [⟨"quality_evaluation", "QualityEvaluatorAgent", t, false, some msg⟩]
          error_message := some (some ("Quality evaluation failed: " ++ msg))
          has_error := some true }

/-- `improveResponseNode` (orchestrator.ts): increment the retry counter via
`WorkflowStateUtils.incrementRetry` when `shouldRetry` holds, otherwise
return only `next_action = finalize_response`. -/
def improveResponseNode (s : WorkflowState) : StatePatch :=
  if shouldRetry s then incrementRetry s
  else { next_action := some "finalize_response" }

/-- `finalizeResponseNode` (orchestrator.ts): build the final output via
`buildJiraResponse`, or flag an error when it yields `null`. -/
def finalizeResponseNode (s : WorkflowState) (t : Nat) : StatePatch :=
  match buildJiraResponse s with
  | none =>
      { error_message := some (some "Failed to build final response")
        has_error := some true
        next_action := some "error" }
  | some out =>
      { final_output := some out
        completed_at := some t }

/-- `sendToJiraNode` (orchestrator.ts): refuse when there is no final
output, otherwise report the API outcome (a failed or thrown send sets the
error flag; the metadata written on success is not modelled). -/
def sendToJiraNode (s : WorkflowState) (o : SendOutcome) : StatePatch :=
  match s.final_output with
  | none =>
      { error_message := some (some "No final output to send")
        has_error := some true }
  | some _ =>
      match o with
      | .success => {}
      | .failure msg =>
          { error_message := some (some ("Failed to send to Jira: " ++ msg))
            has_error := some true }

/-- `handleErrorNode` (orchestrator.ts): log and stamp completion. -/
def handleErrorNode (t : Nat) : StatePatch :=
  { completed_at := some t }

/-- `routeAfterClassification` (orchestrator.ts). -/
def routeAfterClassification (s : WorkflowState) : String :=
  if s.has_error then "error"
  else if s.next_action = "" then "error"
  else s.next_action

/-- `routeAfterQuality` (orchestrator.ts). -/
def routeAfterQuality (s : WorkflowState) : String :=
  if s.has_error then "error"
  else if s.next_action = "" then "error"
  else s.next_action

/-- `routeAfterImprovement` (orchestrator.ts): finalize once the retry
budget is spent, otherwise re-route purely on the classification category
(`JIRA_SIMPLE` / `JIRA_COMPLEX` / otherwise general); the classification
confidence is not consulted. -/
def routeAfterImprovement (s : WorkflowState) : String :=
  if s.has_error then "error"
  else if s.max_retries ≤ s.retry_count then "finalize_response"
  else
    match s.classification with
    | some c =>
        if c.category = "JIRA_SIMPLE" then "login_handler"
        else if c.category = "JIRA_COMPLEX" then "complex_handler"
        else "general_handler"
    | none => "general_handler"

/-- `routeAfterError` (orchestrator.ts). -/
def routeAfterError (s : WorkflowState) : String :=
  if shouldRetry s then "retry" else "end"

/-- Graph nodes of `buildGraph` (orchestrator.ts); `done` is LangGraph END. -/
inductive Node where
  | classify
  | login_handler
  | complex_handler
  | general_handler
  | quality_evaluation
  | improve_response
  | finalize_response
  | send_to_jira
  | handle_error
  | done
deriving DecidableEq, Repr

/-- Target of a conditional branch key, per the explicit mappings passed to
`addConditionalEdges` in `buildGraph`; an unmapped key is a fatal routing
error (`none`). -/
def classifyMapping (k : String) : Option Node :=
  if k = "login_handler" then some .login_handler
  else if k = "complex_handler" then some .complex_handler
  else if k = "general_handler" then some .general_handler
  else if k = "error" then some .handle_error
  else none

/-- Branch mapping of the `quality_evaluation` conditional edge. -/
def qualityMapping (k : String) : Option Node :=
  if k = "improve_response" then some .improve_response
  else if k = "finalize_response" then some .finalize_response
  else if k = "error" then some .handle_error
  else none

/-- Branch mapping of the `improve_response` conditional edge. -/
def improvementMapping (k : String) : Option Node :=
  if k = "login_handler" then some .login_handler
  else if k = "complex_handler" then some .complex_handler
  else if k = "general_handler" then some .general_handler
  else if k = "finalize_response" then some .finalize_response
  else if k = "error" then some .handle_error
  else none

/-- Branch mapping of the `handle_error` conditional edge. -/
def errorMapping (k : String) : Option Node :=
  if k = "retry" then some .classify
  else if k = "end" then some .done
  else none

/-- Successor resolution of `buildGraph`: the handler nodes and
`finalize_response` / `send_to_jira` have static edges (in particular every
handler flows into `quality_evaluation`, and `finalize_response` flows into
`send_to_jira` unconditionally); the other nodes use their conditional
mapping on the state left after merging the node patch. -/
def nextNode (n : Node) (s : WorkflowState) : Option Node :=
  match n with
  | .classify => classifyMapping (routeAfterClassification s)
  | .login_handler => some .quality_evaluation
  | .complex_handler => some .quality_evaluation
  | .general_handler => some .quality_evaluation
  | .quality_evaluation => qualityMapping (routeAfterQuality s)
  | .improve_response => improvementMapping (routeAfterImprovement s)
  | .finalize_response => some .send_to_jira
  | .send_to_jira => some .done
  | .handle_error => errorMapping (routeAfterError s)
  | .done => none

/-- One oracle value per kind of external call a step might make. -/
structure Oracle where
  classifyO : ClassifyOutcome
  handlerO : HandlerOutcome
  qualityO : QualityOutcome
  sendO : SendOutcome
deriving DecidableEq, Repr

/-- The patch produced by executing a node on a state, given the oracle for
the external calls of this step and the current clock. -/
def nodePatch (n : Node) (s : WorkflowState) (o : Oracle) (t : Nat) : StatePatch :=
  match n with
  | .classify => classifyNode o.classifyO t
  | .login_handler => handlerNode "login_handling" "LoginHandlerAgent" o.handlerO t
  | .complex_handler => handlerNode "complex_handling" "ComplexHandlerAgent" o.handlerO t
  | .general_handler => handlerNode "general_handling" "GeneralHandlerAgent" o.handlerO t
  | .quality_evaluation => qualityEvaluationNode s o.qualityO t
  | .improve_response => improveResponseNode s
  | .finalize_response => finalizeResponseNode s t
  | .send_to_jira => sendToJiraNode s o.sendO
  | .handle_error => handleErrorNode t
  | .done => {}

/-- One engine step as LangGraph executes it: run the node, merge the patch
into the state, then resolve the successor on the merged state. -/
def stepRun (n : Node) (s : WorkflowState) (o : Oracle) (t : Nat) :
    WorkflowState × Option Node :=
  let s' := mergeState s (nodePatch n s o t)
  (s', nextNode n s')

/-- The step relation of the graph executor: some oracle outcome takes the
configuration (node, state, clock) to its successor, the clock advancing by
one. -/
inductive Step : Node × WorkflowState × Nat → Node × WorkflowState × Nat → Prop where
  | mk (n : Node) (s : WorkflowState) (o : Oracle) (t : Nat) (n' : Node)
      (h : (stepRun n s o t).2 = some n') :
      Step (n, s, t) (n', (stepRun n s o t).1, t + 1)

/-- Reachable configurations: the graph starts at `classify` on the initial
state (`processRequest` merges `createInitialState` into the defaults and
invokes the compiled graph, whose entry edge is START to classify). -/
inductive Reachable : Node × WorkflowState × Nat → Prop where
  | init (req : JiraIssueInput) (wid : String) (t : Nat) :
      Reachable (.classify, initialState req wid t, t)
  | step {c c' : Node × WorkflowState × Nat} :
      Reachable c → Step c c' → Reachable c'

/-- The JCSC-1 mock issue from the repository test data. -/
def mockIssue : JiraIssueInput :=
  { project_id := "JCSC-1"
    issue_type := "Support Request"
    reporter := "PETER.W.WANG"
    created := "2025/9/22 10:15"
    summary := "無法登入Jira系統"
    comment_content := "我嘗試用我的公司帳號密碼登入，但系統一直提示用戶名或密碼錯誤。" }

/-- A quality-gate stub that always scores 50 and demands improvement, as in
the budget-exhaustion test of the spec. -/
def alwaysImprove : QualityAssessment :=
  { score := 50
    criteria := ⟨50, 50, 50, 50, 50⟩
    feedback := "needs work"
    requires_improvement := true
    improvement_suggestions := ["add detail"] }

/-- A benign oracle: successful classification to the login handler, a
successful handler draft, the always-improve quality stub, successful send. -/
def mockOracle : Oracle :=
  { classifyO := .success ⟨"JIRA_SIMPLE", 9 / 10, "login issue", ["登入"]⟩ "login_handler"
    handlerO := .success "draft response"
    qualityO := .success alwaysImprove
    sendO := .success }

/-- The state in which the quality gate has just demanded improvement with
budget remaining, as the improvement node receives it in the
budget-exhaustion scenario of the spec (`max_retries = 2`, always-improve
gate): a stored draft, `retry_count = 0`, and — because `routeAfterQuality`
routes to `handle_error` whenever `has_error` is set — necessarily
`has_error = false`. -/
def improveDemandState : WorkflowState :=
  { initialState mockIssue "wf-2" 0 with
      classification := some ⟨"JIRA_SIMPLE", 9 / 10, "login issue", ["登入"]⟩
      current_response := "draft response"
      quality_assessment := some alwaysImprove
      quality_score := some (50 : ℚ)
      max_retries := 2
      next_action := "improve_response" }

/-- State after the improvement node in the C2 scenario. -/
def c2s1 : WorkflowState :=
  (stepRun Node.improve_response improveDemandState mockOracle 10).1

/-- State after the re-invoked handler in the C2 scenario. -/
def c2s2 : WorkflowState := (stepRun Node.login_handler c2s1 mockOracle 11).1

/-- State after the re-run quality gate in the C2 scenario. -/
def c2s3 : WorkflowState := (stepRun Node.quality_evaluation c2s2 mockOracle 12).1

/-- The improvement-loop state of C3: a low-confidence (0.59) classification
with a mapped category, budget remaining, no error. -/
def lowConfidenceRetryState : WorkflowState :=
  { initialState mockIssue "wf-3" 0 with
      classification := some ⟨"JIRA_SIMPLE", 59 / 100, "unsure", []⟩
      current_response := "draft response"
      next_action := "improve_response" }

/-- The quality-gate input state of the C5 scenario: a stored draft, no
error. -/
def qualityEvalState : WorkflowState :=
  { initialState mockIssue "wf-5" 0 with
      classification := some ⟨"JIRA_SIMPLE", 9 / 10, "login issue", []⟩
      current_response := "draft response" }

/-- An assessment scoring 80 whose `requires_improvement` flag is set: the
schema constrains the flag to a boolean but nothing ties it to the score. -/
def highScoreStillImprove : QualityAssessment :=
  { score := 80
    criteria := ⟨80, 80, 80, 80, 80⟩
    feedback := "ok but could be better"
    requires_improvement := true
    improvement_suggestions := ["polish"] }

/-- Oracle whose handler call throws, as in the fatal short-circuit test. -/
def failingOracle : Oracle :=
  { mockOracle with handlerO := .failure "FatalPipelineError" }

/-- The state in which a handler is about to run in the C6 scenario. -/
def handlerEntryState : WorkflowState :=
  { initialState mockIssue "wf-6" 0 with
      classification := some ⟨"JIRA_SIMPLE", 1, "login issue", ["登入"]⟩
      next_action := "login_handler" }

/-- State after the failed handler in the C6 scenario. -/
def c6s1 : WorkflowState :=
  (stepRun Node.login_handler handlerEntryState failingOracle 3).1

/-- State after the quality node ran on the failed-handler state. -/
def c6s2 : WorkflowState := (stepRun Node.quality_evaluation c6s1 failingOracle 4).1

/-- State after the error handler in the C6 scenario. -/
def c6s3 : WorkflowState := (stepRun Node.handle_error c6s2 failingOracle 5).1

/-- A terminal-shaped state with an empty draft and no fatal error, on which
the finalizer is invoked in the C8 scenario. -/
def emptyResponseTerminal : WorkflowState :=
  { initialState mockIssue "wf-8" 0 with next_action := "finalize_response" }

/-- State after the finalizer ran on the empty draft. -/
def c8s1 : WorkflowState :=
  (stepRun Node.finalize_response emptyResponseTerminal mockOracle 7).1

end JiraCSServer

namespace JiraCSAgent

/-- The email under processing (fields the orchestrator reads). -/
structure Email where
  subject : String
  sender : String
  body : String
deriving DecidableEq, Repr

/-- Classification result, from `ClassificationResult` as produced by
`EmailClassifierAgent.execute`: the category string comes from an unchecked
cast of the parsed model output, so it is an arbitrary string at runtime. -/
structure Classification where
  category : String
  confidence : ℚ
  reasoning : String
  keyIndicators : List String
  suggestedAction : String
deriving DecidableEq, Repr

/-- Evaluation result read by `routeAfterEvaluation` and `processFeedback`. -/
structure Evaluation where
  recommendedAction : String
  isClassificationCorrect : Bool
  suggestedCategory : Option String
  confidence : ℚ
  reasoning : String
  keyEvidence : List String
deriving DecidableEq, Repr

/-- The error object the orchestrator wrappers store in `state.error`. -/
structure Err where
  message : String
  source : String
deriving DecidableEq, Repr

/-- The `state.result` record. -/
structure HandlerResult where
  action : String
  response : String
  status : String
deriving DecidableEq, Repr

/-- The workflow state threaded through
`LangGraphStyleEmailWorkflowOrchestrator` (the interface lives in
types/agent, reconstructed from the fields the orchestrator and agents read
and write; the message log is kept as the list of message contents, and
`feedbackData` is abstracted to its id). -/
structure AgentState where
  email : Email
  messages : List String
  classification : Option Classification
  evaluation : Option Evaluation
  feedbackId : Option String
  result : Option HandlerResult
  currentAgent : String
  error : Option Err
deriving DecidableEq, Repr

/-- Oracle outcomes for the external generative calls one engine step might
make (`process_feedback` makes up to two: the feedback agent call and the
re-processing handler call). -/
structure AgentOracle where
  classifyR : Except Err Classification
  handlerR : Except Err String
  evalR : Except Err Evaluation
  feedbackR : Except Err String
  handler2R : Except Err String
deriving Repr

/-- `classifyEmail` (orchestrator wrapper around
`EmailClassifierAgent.execute`): record the classification, or the error. -/
def classifyEmail (s : AgentState) (r : Except Err Classification) : AgentState :=
  match r with
  | .ok c =>
      { s with
        classification := some c
        currentAgent := "email_classifier"
        messages := s.messages ++ ["mail classified"] }
  | .error e => { s with error := some e }

/-- The common body of `handleJiraSimple` / `handleJiraComplex` /
`handleGeneral`: on success append the response and record a completed
result; on failure record the error and a failed result
(per `JiraSimpleHandlerAgent.execute` and its siblings). -/
def handleWith (actionName : String) (s : AgentState) (r : Except Err String) : AgentState :=
  match r with
  | .ok resp =>
      { s with
        messages := s.messages ++ [resp]
        result := some ⟨actionName, resp, "completed"⟩ }
  | .error e =>
      { s with
        error := some e
        result := some ⟨actionName, "failed", "failed"⟩ }

/-- `evaluateResult` (wrapper around `ResultEvaluatorAgent.execute`). -/
def evaluateResult (s : AgentState) (r : Except Err Evaluation) : AgentState :=
  match r with
  | .ok ev => { s with evaluation := some ev, currentAgent := "result_evaluator" }
  | .error e => { s with error := some e }

/-- `reclassifyEmail`: replace the classification with the evaluation
suggestion; a missing suggestion is the thrown-and-caught error path. -/
def reclassifyEmail (s : AgentState) : AgentState :=
  match s.evaluation with
  | some ev =>
      match ev.suggestedCategory with
      | some cat =>
          { s with
            classification :=
              some ⟨cat, ev.confidence, "reclassified: " ++ ev.reasoning,
                    ev.keyEvidence, "reclassification"⟩
            currentAgent := "result_evaluator" }
      | none => { s with error := some ⟨"重新分類失敗: 缺少建議的分類結果", "reclassify_email"⟩ }
  | none => { s with error := some ⟨"重新分類失敗: 缺少建議的分類結果", "reclassify_email"⟩ }

/-- `processFeedback`: run the feedback agent, then, when the evaluation
demanded reclassification, reclassify and re-run the handler selected by a
switch on the corrected category alone (default branch: general). -/
def processFeedback (s : AgentState) (o : AgentOracle) : AgentState :=
  match o.feedbackR with
  | .error e => { s with error := some e }
  | .ok fid =>
      let s1 := { s with feedbackId := some fid }
      match s.evaluation with
      | some ev =>
          if ev.recommendedAction = "reclassify" then
            match ev.suggestedCategory with
            | some cat =>
                let s2 := reclassifyEmail s1
                if cat = "jira_simple" then handleWith "jira_simple_resolution" s2 o.handler2R
                else if cat = "jira_complex" then handleWith "jira_complex_resolution" s2 o.handler2R
                else handleWith "general_response" s2 o.handler2R
            | none => reclassifyEmail s1
          else s1
      | none => s1

/-- `routeToHandler`: no classification or confidence below 0.6 routes to
the general handler, otherwise the branch key is the category itself. -/
def routeToHandler (s : AgentState) : String :=
  match s.classification with
  | none => "general"
  | some c => if c.confidence < 3 / 5 then "general" else c.category

/-- `routeAfterEvaluation`: no evaluation accepts outright; a reclassify
recommendation goes to feedback processing; otherwise the recommended
action itself is the branch key. -/
def routeAfterEvaluation (s : AgentState) : String :=
  match s.evaluation with
  | none => "accept"
  | some ev =>
      if ev.recommendedAction = "reclassify" then "process_feedback"
      else ev.recommendedAction

/-- Branch mapping of the `classify_email` conditional edge
(`setupWorkflow`); a key outside the three listed categories has no route. -/
def classifyMapping (k : String) : Option String :=
  if k = "jira_simple" then some "handle_jira_simple"
  else if k = "jira_complex" then some "handle_jira_complex"
  else if k = "general" then some "handle_general"
  else none

/-- Branch mapping of the `evaluate_result` conditional edge. -/
def evaluateMapping (k : String) : Option String :=
  if k = "accept" then some "END"
  else if k = "process_feedback" then some "process_feedback"
  else if k = "human_review" then some "END"
  else none

/-- Static edges registered by `setupWorkflow`. -/
def staticEdge (n : String) : Option String :=
  if n = "START" then some "classify_email"
  else if n = "handle_jira_simple" then some "evaluate_result"
  else if n = "handle_jira_complex" then some "evaluate_result"
  else if n = "handle_general" then some "evaluate_result"
  else if n = "process_feedback" then some "END"
  else none

/-- Conditional-edge resolution: `some (some target)` on a mapped key,
`some none` when the node has a conditional edge but the key is unmapped
(the engine then throws), `none` when the node has no conditional edge. -/
def condEdge (n : String) (s : AgentState) : Option (Option String) :=
  if n = "classify_email" then some (classifyMapping (routeToHandler s))
  else if n = "evaluate_result" then some (evaluateMapping (routeAfterEvaluation s))
  else none

/-- Node execution: the node map built by `setupWorkflow`; `none` models the
looked-up node being absent (the engine throws). -/
def execNode (n : String) (s : AgentState) (o : AgentOracle) : Option AgentState :=
  if n = "START" then some s
  else if n = "classify_email" then some (classifyEmail s o.classifyR)
  else if n = "handle_jira_simple" then some (handleWith "jira_simple_resolution" s o.handlerR)
  else if n = "handle_jira_complex" then some (handleWith "jira_complex_resolution" s o.handlerR)
  else if n = "handle_general" then some (handleWith "general_response" s o.handlerR)
  else if n = "evaluate_result" then some (evaluateResult s o.evalR)
  else if n = "reclassify_email" then some (reclassifyEmail s)
  else if n = "process_feedback" then some (processFeedback s o)
  else if n = "END" then some s
  else none

/-- Result of the engine loop: a normal return with the visited node list,
or a thrown error (missing node or missing route) with the nodes visited up
to the throw. -/
inductive RunOutcome where
  | finished (s : AgentState) (visited : List String)
  | thrown (msg : String) (visited : List String)
deriving Repr

/-- The visited node list of a run outcome. -/
def RunOutcome.visited : RunOutcome → List String
  | .finished _ v => v
  | .thrown _ v => v

/-- The body of `processEmail` (orchestrator-langgraph.ts): for up to `fuel`
iterations, stop at END, execute the current node, break out with the
current state when the node left an error (for any node other than START and
END), otherwise resolve the next node by conditional edge, then static edge,
then fall through to END.  A missing node or missing route throws. -/
def runLoop (os : Nat → AgentOracle) :
    Nat → Nat → String → AgentState → List String → RunOutcome
  | 0, _, _, s, visited => .finished s visited
  | fuel + 1, k, node, s, visited =>
      if node = "END" then .finished s visited
      else
        let visited' := visited ++ [node]
        match execNode node s (os k) with
        | none => .thrown ("找不到節點: " ++ node) visited'
        | some s' =>
            if s'.error.isSome ∧ node ≠ "START" ∧ node ≠ "END" then
              .finished s' visited'
            else
              match condEdge node s' with
              | some (some nxt) => runLoop os fuel (k + 1) nxt s' visited'
              | some none => .thrown "條件結果沒有對應的路由" visited'
              | none =>
                  match staticEdge node with
                  | some nxt => runLoop os fuel (k + 1) nxt s' visited'
                  | none => runLoop os fuel (k + 1) "END" s' visited'

/-- The loop budget, `const maxSteps = 10` in `processEmail`: a literal
constant, independent of any retry counter. -/
def maxSteps : Nat := 10

/-- `processEmail`: run the loop from START with the step budget; a thrown
error is caught and converted into the initial state plus an orchestrator
error and a `workflow_error` failed result. -/
def processEmail (os : Nat → AgentOracle) (init : AgentState) :
    AgentState × List String :=
  match runLoop os maxSteps 0 "START" init [] with
  | .finished s visited => (s, visited)
  | .thrown msg visited =>
      ({ init with
          error := some ⟨"工作流程執行失敗: " ++ msg, "orchestrator"⟩
          result := some ⟨"workflow_error", "工作流程執行過程中發生錯誤", "failed"⟩ },
        visited)

/-- A concrete email for the JiraCSAgent scenarios. -/
def email0 : Email :=
  { subject := "Jira登入問題", sender := "user at example dot com", body := "無法登入" }

/-- The initial agent state for one email. -/
def agentInit : AgentState :=
  { email := email0
    messages := []
    classification := none
    evaluation := none
    feedbackId := none
    result := none
    currentAgent := ""
    error := none }

/-- The agent state after a 0.59-confidence classification into a mapped
category. -/
def agentState59 : AgentState :=
  { agentInit with classification := some ⟨"jira_simple", 59 / 100, "unsure", [], ""⟩ }

/-- An oracle whose handler call fails fatally. -/
def failOracleAgent : AgentOracle :=
  { classifyR := .ok ⟨"jira_simple", 1, "login", ["登入"], "guide"⟩
    handlerR := .error ⟨"FatalPipelineError", "jira-simple-handler"⟩
    evalR := .ok ⟨"accept", true, none, 1, "fine", []⟩
    feedbackR := .ok "fb-1"
    handler2R := .ok "resp2" }

/-- An oracle whose classifier confidently reports a category outside the
handler table. -/
def unmappedOracle : AgentOracle :=
  { classifyR := .ok ⟨"technical", 9 / 10, "looks technical", [], ""⟩
    handlerR := .ok "resp"
    evalR := .ok ⟨"accept", true, none, 1, "fine", []⟩
    feedbackR := .ok "fb-1"
    handler2R := .ok "resp2" }

end JiraCSAgent

namespace JiraCSServer

/-- Merging projects the retry counter through its reducer. -/
theorem mergeState_retry_count (s : WorkflowState) (p : StatePatch) :
    (mergeState s p).retry_count = p.retry_count.getD s.retry_count := rfl

/-- Merging projects the retry budget through its reducer. -/
theorem mergeState_max_retries (s : WorkflowState) (p : StatePatch) :
    (mergeState s p).max_retries = p.max_retries.getD s.max_retries := rfl

/-- Merging concatenates the audit trail. -/
theorem mergeState_history (s : WorkflowState) (p : StatePatch) :
    (mergeState s p).processing_history = s.processing_history ++ p.processing_history := rfl

/-- No node other than `improve_response` ever places `retry_count` in its
patch. -/
theorem nodePatch_retry_count_none (n : Node) (s : WorkflowState) (o : Oracle) (t : Nat)
    (hn : n ≠ Node.improve_response) : (nodePatch n s o t).retry_count = none := by
  obtain ⟨co, ho, qo, so⟩ := o
  cases n with
  | classify => cases co <;> rfl
  | login_handler => cases ho <;> rfl
  | complex_handler => cases ho <;> rfl
  | general_handler => cases ho <;> rfl
  | quality_evaluation =>
      simp only [nodePatch, qualityEvaluationNode]
      split
      · rfl
      · cases qo <;> rfl
  | improve_response => exact absurd rfl hn
  | finalize_response =>
      simp only [nodePatch, finalizeResponseNode]
      split <;> rfl
  | send_to_jira =>
      simp only [nodePatch, sendToJiraNode]
      split
      · rfl
      · cases so <;> rfl
  | handle_error => rfl
  | done => rfl

/-- No node, the improvement node included, ever patches `max_retries`. -/
theorem nodePatch_max_retries_none (n : Node) (s : WorkflowState) (o : Oracle) (t : Nat) :
    (nodePatch n s o t).max_retries = none := by
  obtain ⟨co, ho, qo, so⟩ := o
  cases n with
  | classify => cases co <;> rfl
  | login_handler => cases ho <;> rfl
  | complex_handler => cases ho <;> rfl
  | general_handler => cases ho <;> rfl
  | quality_evaluation =>
      simp only [nodePatch, qualityEvaluationNode]
      split
      · rfl
      · cases qo <;> rfl
  | improve_response =>
      simp only [nodePatch, improveResponseNode]
      split <;> rfl
  | finalize_response =>
      simp only [nodePatch, finalizeResponseNode]
      split <;> rfl
  | send_to_jira =>
      simp only [nodePatch, sendToJiraNode]
      split
      · rfl
      · cases so <;> rfl
  | handle_error => rfl
  | done => rfl

/-- A single engine step preserves the retry bound: the only write to
`retry_count` is `incrementRetry`, which is guarded by
`retry_count < max_retries` inside `shouldRetry`. -/
theorem step_retry_le {c c' : Node × WorkflowState × Nat} (h : Step c c')
    (hle : c.2.1.retry_count ≤ c.2.1.max_retries) :
    c'.2.1.retry_count ≤ c'.2.1.max_retries := by
  cases h with
  | mk n s o t n' hnext =>
      show (mergeState s (nodePatch n s o t)).retry_count ≤
        (mergeState s (nodePatch n s o t)).max_retries
      rw [mergeState_retry_count, mergeState_max_retries, nodePatch_max_retries_none]
      by_cases hn : n = Node.improve_response
      · subst hn
        simp only [nodePatch, improveResponseNode]
        by_cases hr : shouldRetry s = true
        · have hlt : s.retry_count < s.max_retries := by
            have := hr
            simp only [shouldRetry, Bool.and_eq_true, decide_eq_true_eq] at this
            exact this.1
          simp only [hr, if_true, incrementRetry, Option.getD_some, Option.getD_none]
          omega
        · have hle' : s.retry_count ≤ s.max_retries := hle
          simp only [hr, if_neg, Option.getD_none]
          simpa using hle'
      · rw [nodePatch_retry_count_none n s o t hn]
        simpa using hle

/-- In every reachable configuration the retry counter is bounded by the
retry budget. -/
theorem reachable_retry_le {c : Node × WorkflowState × Nat} (h : Reachable c) :
    c.2.1.retry_count ≤ c.2.1.max_retries := by
  induction h with
  | init req wid t => simp [initialState]
  | step _ hs ih => exact step_retry_le hs ih

/-- Every history entry a node patch creates is stamped with the clock of
that step. -/
theorem nodePatch_history_timestamp (n : Node) (s : WorkflowState) (o : Oracle) (t : Nat) :
    ∀ e ∈ (nodePatch n s o t).processing_history, e.timestamp = t := by
  obtain ⟨co, ho, qo, so⟩ := o
  cases n with
  | classify => cases co <;> simp [nodePatch, classifyNode]
  | login_handler => cases ho <;> simp [nodePatch, handlerNode]
  | complex_handler => cases ho <;> simp [nodePatch, handlerNode]
  | general_handler => cases ho <;> simp [nodePatch, handlerNode]
  | quality_evaluation =>
      simp only [nodePatch, qualityEvaluationNode]
      split
      · simp
      · cases qo <;> simp
  | improve_response =>
      simp only [nodePatch, improveResponseNode]
      split <;> simp [incrementRetry]
  | finalize_response =>
      simp only [nodePatch, finalizeResponseNode]
      split <;> simp
  | send_to_jira =>
      simp only [nodePatch, sendToJiraNode]
      split
      · simp
      · cases so <;> simp
  | handle_error => simp [nodePatch, handleErrorNode]
  | done => simp [nodePatch]

/-- A node patch carries at most one history entry. -/
theorem nodePatch_history_short (n : Node) (s : WorkflowState) (o : Oracle) (t : Nat) :
    (nodePatch n s o t).processing_history.length ≤ 1 := by
  obtain ⟨co, ho, qo, so⟩ := o
  cases n with
  | classify => cases co <;> simp [nodePatch, classifyNode]
  | login_handler => cases ho <;> simp [nodePatch, handlerNode]
  | complex_handler => cases ho <;> simp [nodePatch, handlerNode]
  | general_handler => cases ho <;> simp [nodePatch, handlerNode]
  | quality_evaluation =>
      simp only [nodePatch, qualityEvaluationNode]
      split
      · simp
      · cases qo <;> simp
  | improve_response =>
      simp only [nodePatch, improveResponseNode]
      split <;> simp [incrementRetry]
  | finalize_response =>
      simp only [nodePatch, finalizeResponseNode]
      split <;> simp
  | send_to_jira =>
      simp only [nodePatch, sendToJiraNode]
      split
      · simp
      · cases so <;> simp
  | handle_error => simp [nodePatch, handleErrorNode]
  | done => simp [nodePatch]

/-- A list with at most one element is trivially a chain. -/
theorem chain'_of_length_le_one {α : Type} {R : α → α → Prop} {l : List α}
    (h : l.length ≤ 1) : l.Chain' R := by
  match l, h with
  | [], _ => exact List.chain'_nil
  | [a], _ => exact List.chain'_singleton a

/-- Clock invariant of reachable configurations: all recorded timestamps lie
strictly below the clock, and the audit trail is sorted by timestamp. -/
theorem reachable_history_inv {c : Node × WorkflowState × Nat} (h : Reachable c) :
    (∀ e ∈ c.2.1.processing_history, e.timestamp < c.2.2) ∧
      c.2.1.processing_history.Chain' (fun a b => a.timestamp ≤ b.timestamp) := by
  induction h with
  | init req wid t => simp [initialState]
  | step _ hs ih =>
      cases hs with
      | mk n s o t n' hnext =>
          refine ⟨?_, ?_⟩
          · intro e he
            rw [show (stepRun n s o t).1 = mergeState s (nodePatch n s o t) from rfl,
              mergeState_history] at he
            rcases List.mem_append.mp he with h1 | h2
            · exact Nat.lt_succ_of_lt (ih.1 e h1)
            · rw [nodePatch_history_timestamp n s o t e h2]
              exact Nat.lt_succ_self t
          · rw [show (stepRun n s o t).1 = mergeState s (nodePatch n s o t) from rfl,
              mergeState_history]
            refine List.Chain'.append ih.2
              (chain'_of_length_le_one (nodePatch_history_short n s o t)) ?_
            intro x hx y hy
            have hxm : x ∈ s.processing_history := List.mem_of_mem_getLast? hx
            have hym : y ∈ (nodePatch n s o t).processing_history :=
              List.mem_of_mem_head? hy
            have hxt : x.timestamp < t := ih.1 x hxm
            have hyt : y.timestamp = t := nodePatch_history_timestamp n s o t y hym
            omega

end JiraCSServer

namespace JiraCSServer

/-- C1: in every reachable configuration of the JiraCSServer workflow graph
the retry counter is bounded by the retry budget, and the improvement node
is the only writer of `retry_count`: the patch returned by every other node
(classifier, the three handlers, quality gate, finalizer, send, error
handler) leaves the `retry_count` channel absent. -/
theorem C1_retry_bound_and_sole_writer :
    (∀ (n : Node) (s : WorkflowState) (t : Nat),
        Reachable (n, s, t) → s.retry_count ≤ s.max_retries) ∧
    (∀ (n : Node) (s : WorkflowState) (o : Oracle) (t : Nat),
        n ≠ Node.improve_response → (nodePatch n s o t).retry_count = none) :=
  ⟨fun _ _ _ h => reachable_retry_le h,
    fun n s o t hn => nodePatch_retry_count_none n s o t hn⟩

/-- Witness for C1: the initial configuration of the JCSC-1 mock issue, and
the classifier patch on it. -/
theorem C1_witness :
    (initialState mockIssue "wf-1" 0).retry_count ≤
      (initialState mockIssue "wf-1" 0).max_retries ∧
    (nodePatch Node.classify (initialState mockIssue "wf-1" 0) mockOracle 0).retry_count
      = none :=
  ⟨C1_retry_bound_and_sole_writer.1 Node.classify (initialState mockIssue "wf-1" 0) 0
      (Reachable.init mockIssue "wf-1" 0),
    C1_retry_bound_and_sole_writer.2 Node.classify (initialState mockIssue "wf-1" 0)
      mockOracle 0 (by decide)⟩

/-- C4: every stage merge appends the patch entries at the end of
`processing_history` (the pre-merge trail is a prefix of the post-merge
trail, so nothing is removed, truncated or reordered), and along every
reachable execution the trail is sorted by non-decreasing timestamp. -/
theorem C4_history_append_only_and_sorted :
    (∀ (s : WorkflowState) (p : StatePatch),
        s.processing_history <+: (mergeState s p).processing_history) ∧
    (∀ (n : Node) (s : WorkflowState) (t : Nat), Reachable (n, s, t) →
        s.processing_history.Chain' (fun a b => a.timestamp ≤ b.timestamp)) :=
  ⟨fun s p => ⟨p.processing_history, (mergeState_history s p).symm⟩,
    fun _ _ _ h => (reachable_history_inv h).2⟩

/-- Witness for C4: a classifier merge on the initial JCSC-1 configuration,
and the trail of that initial configuration. -/
theorem C4_witness :
    (initialState mockIssue "wf-1" 0).processing_history <+:
      (mergeState (initialState mockIssue "wf-1" 0)
        (nodePatch Node.classify (initialState mockIssue "wf-1" 0)
          mockOracle 0)).processing_history ∧
    (initialState mockIssue "wf-1" 0).processing_history.Chain'
      (fun a b => a.timestamp ≤ b.timestamp) :=
  ⟨C4_history_append_only_and_sorted.1 (initialState mockIssue "wf-1" 0)
      (nodePatch Node.classify (initialState mockIssue "wf-1" 0) mockOracle 0),
    C4_history_append_only_and_sorted.2 Node.classify (initialState mockIssue "wf-1" 0) 0
      (Reachable.init mockIssue "wf-1" 0)⟩

/-- C10: the `current_response` reducer `update || existing` ignores an
absent or empty update, so a failed handler pass cannot erase a stored
draft; the merged value equals the patch value exactly when it is
non-empty. -/
theorem C10_empty_response_cannot_erase_draft :
    (∀ (s : WorkflowState) (p : StatePatch),
        p.current_response = none ∨ p.current_response = some "" →
        (mergeState s p).current_response = s.current_response) ∧
    (∀ (s : WorkflowState) (p : StatePatch) (v : String),
        p.current_response = some v → v ≠ "" →
        (mergeState s p).current_response = v) := by
  constructor
  · intro s p hp
    rcases hp with h | h <;> simp [mergeState, lwwString, h]
  · intro s p v hp hv
    simp [mergeState, lwwString, hp, hv]

/-- Witness for C10: a state holding a stored draft merged with an
empty-response patch keeps the draft, and merged with the successful handler
patch takes the new draft. -/
theorem C10_witness :
    (mergeState
        { initialState mockIssue "wf-1" 0 with current_response := "stored draft" }
        { current_response := some "" }).current_response = "stored draft" ∧
    (mergeState
        { initialState mockIssue "wf-1" 0 with current_response := "stored draft" }
        { current_response := some "new draft" }).current_response = "new draft" :=
  ⟨C10_empty_response_cannot_erase_draft.1
      { initialState mockIssue "wf-1" 0 with current_response := "stored draft" }
      { current_response := some "" } (Or.inr rfl),
    C10_empty_response_cannot_erase_draft.2
      { initialState mockIssue "wf-1" 0 with current_response := "stored draft" }
      { current_response := some "new draft" } "new draft" rfl (by decide)⟩

/-- C2: the improvement controller does not increment `retry_count` on the
quality-demanded improvement path.  `shouldRetry` requires `has_error`,
which is false whenever `improve_response` is reached (an error state routes
to `handle_error` instead), so `incrementRetry` never fires there: with
`max_retries = 2` and an always-improve gate the engine routes improve →
handler → quality → improve with `retry_count` still 0, consuming no budget
— the cycle never reaches the degraded finalize. -/
theorem C2_improve_path_never_increments_retry :
    (nodePatch Node.improve_response improveDemandState mockOracle 10).retry_count = none ∧
    (stepRun Node.improve_response improveDemandState mockOracle 10).2
      = some Node.login_handler ∧
    c2s1.retry_count = 0 ∧
    (stepRun Node.login_handler c2s1 mockOracle 11).2 = some Node.quality_evaluation ∧
    (stepRun Node.quality_evaluation c2s2 mockOracle 12).2 = some Node.improve_response ∧
    c2s3.retry_count = 0 ∧ c2s3.max_retries = 2 ∧ c2s3.has_error = false := by
  decide

end JiraCSServer

/-- C3 counterexample: at the same 0.59 confidence with a mapped category,
initial routing (`routeToHandler`) applies the threshold and selects the
general handler, but the improvement-loop re-routing
(`routeAfterImprovement`) selects the category handler `login_handler`
instead of the general one — the threshold rule is not applied at
re-routing. -/
theorem C3_counterexample :
    JiraCSAgent.routeToHandler JiraCSAgent.agentState59 = "general" ∧
    JiraCSServer.routeAfterImprovement JiraCSServer.lowConfidenceRetryState
      = "login_handler" ∧
    "login_handler" ≠ "general_handler" := by
  refine ⟨?_, by decide, by decide⟩
  have hlt : (59 / 100 : ℚ) < 3 / 5 := by norm_num
  simp [JiraCSAgent.routeToHandler, JiraCSAgent.agentState59, JiraCSAgent.agentInit, hlt]

/-- C3 amended: the 0.6 confidence threshold governs initial routing
(below: general handler; at or above: the category handler), while
improvement-loop re-routing selects by category alone and never consults
the confidence. -/
theorem C3_amended_threshold_initial_only :
    (∀ (s : JiraCSAgent.AgentState) (c : JiraCSAgent.Classification),
        s.classification = some c → c.confidence < 3 / 5 →
        JiraCSAgent.routeToHandler s = "general") ∧
    (∀ (s : JiraCSAgent.AgentState) (c : JiraCSAgent.Classification),
        s.classification = some c → ¬ c.confidence < 3 / 5 →
        JiraCSAgent.routeToHandler s = c.category) ∧
    (∀ (s : JiraCSServer.WorkflowState) (c : JiraCSServer.ClassificationResult),
        s.has_error = false → s.retry_count < s.max_retries → s.classification = some c →
        JiraCSServer.routeAfterImprovement s =
          (if c.category = "JIRA_SIMPLE" then "login_handler"
            else if c.category = "JIRA_COMPLEX" then "complex_handler"
            else "general_handler")) := by
  refine ⟨?_, ?_, ?_⟩
  · intro s c hc hlt
    simp [JiraCSAgent.routeToHandler, hc, hlt]
  · intro s c hc hge
    simp [JiraCSAgent.routeToHandler, hc, hge]
  · intro s c herr hlt hc
    have hnot : ¬ s.max_retries ≤ s.retry_count := by omega
    simp [JiraCSServer.routeAfterImprovement, herr, hnot, hc]

/-- Witness for C3 amended, at the 0.59 / 0.60 boundary and at the
low-confidence improvement-loop state. -/
theorem C3_amended_witness :
    JiraCSAgent.routeToHandler JiraCSAgent.agentState59 = "general" ∧
    JiraCSAgent.routeToHandler
      { JiraCSAgent.agentInit with
          classification := some ⟨"jira_simple", 3 / 5, "sure", [], ""⟩ } = "jira_simple" ∧
    JiraCSServer.routeAfterImprovement JiraCSServer.lowConfidenceRetryState
      = "login_handler" :=
  ⟨C3_amended_threshold_initial_only.1 JiraCSAgent.agentState59
      ⟨"jira_simple", 59 / 100, "unsure", [], ""⟩ rfl (by norm_num),
    C3_amended_threshold_initial_only.2.1
      { JiraCSAgent.agentInit with
          classification := some ⟨"jira_simple", 3 / 5, "sure", [], ""⟩ }
      ⟨"jira_simple", 3 / 5, "sure", [], ""⟩ rfl (by norm_num),
    C3_amended_threshold_initial_only.2.2 JiraCSServer.lowConfidenceRetryState
      ⟨"JIRA_SIMPLE", 59 / 100, "unsure", []⟩ rfl (by decide) rfl⟩

/-- C5 counterexample: an assessment with score 80 (at least 75) and
`requires_improvement = true` makes the quality gate recommend
`improve_response`, not acceptance — the decision follows the
`requires_improvement` flag delivered by the model, not the score
threshold. -/
theorem C5_counterexample :
    (75 : ℚ) ≤ JiraCSServer.highScoreStillImprove.score ∧
    (JiraCSServer.qualityEvaluationNode JiraCSServer.qualityEvalState
        (.success JiraCSServer.highScoreStillImprove) 5).next_action
      = some "improve_response" ∧
    some "improve_response" ≠ some "finalize_response" := by
  refine ⟨?_, by decide, by decide⟩
  show (75 : ℚ) ≤ JiraCSServer.highScoreStillImprove.score
  simp [JiraCSServer.highScoreStillImprove]
  norm_num

/-- C5 amended: on a non-empty draft the quality gate sets the recommended
action to improve exactly when the assessment `requires_improvement` flag is
set (finalize otherwise), and on the improvement path a spent retry budget
(`retry_count ≥ max_retries`, no error) routes to `finalize_response` —
the best-effort finalize. -/
theorem C5_amended_flag_driven_decision :
    (∀ (s : JiraCSServer.WorkflowState) (a : JiraCSServer.QualityAssessment) (t : Nat),
        s.current_response ≠ "" →
        (JiraCSServer.qualityEvaluationNode s (.success a) t).next_action =
          some (if a.requires_improvement then "improve_response"
                else "finalize_response")) ∧
    (∀ s : JiraCSServer.WorkflowState,
        s.has_error = false → s.max_retries ≤ s.retry_count →
        JiraCSServer.routeAfterImprovement s = "finalize_response") := by
  constructor
  · intro s a t hne
    simp [JiraCSServer.qualityEvaluationNode, hne]
  · intro s herr hbudget
    simp [JiraCSServer.routeAfterImprovement, herr, hbudget]

/-- Witness for C5 amended: the always-improve stub on the concrete draft
state, and a budget-spent state. -/
theorem C5_amended_witness :
    (JiraCSServer.qualityEvaluationNode JiraCSServer.qualityEvalState
        (.success JiraCSServer.alwaysImprove) 5).next_action = some "improve_response" ∧
    JiraCSServer.routeAfterImprovement
      { JiraCSServer.qualityEvalState with retry_count := 2, max_retries := 2 }
      = "finalize_response" :=
  ⟨by
      have h := C5_amended_flag_driven_decision.1 JiraCSServer.qualityEvalState
        JiraCSServer.alwaysImprove 5 (by decide)
      simpa [JiraCSServer.alwaysImprove] using h,
    C5_amended_flag_driven_decision.2
      { JiraCSServer.qualityEvalState with retry_count := 2, max_retries := 2 }
      rfl (by decide)⟩

/-- C6 counterexample, on the JiraCSServer graph: after a handler error the
static handler-to-quality edge still enters the `quality_evaluation` node
(the quality gate is invoked on the errored state), the quality node then
routes to `handle_error`, and `routeAfterError` sends the engine back to
`classify` — a further retry — because the retry budget is not exhausted. -/
theorem C6_counterexample :
    JiraCSServer.c6s1.has_error = true ∧
    (JiraCSServer.stepRun JiraCSServer.Node.login_handler JiraCSServer.handlerEntryState
        JiraCSServer.failingOracle 3).2 = some JiraCSServer.Node.quality_evaluation ∧
    (JiraCSServer.stepRun JiraCSServer.Node.quality_evaluation JiraCSServer.c6s1
        JiraCSServer.failingOracle 4).2 = some JiraCSServer.Node.handle_error ∧
    (JiraCSServer.stepRun JiraCSServer.Node.handle_error JiraCSServer.c6s2
        JiraCSServer.failingOracle 5).2 = some JiraCSServer.Node.classify := by
  decide

/-- C6 amended: in the JiraCSAgent engine the property does hold — when the
handler stage errors, the run loop halts immediately with the errored state,
so `evaluate_result` (the quality gate) is never executed afterwards and no
further node runs.  (In the JiraCSServer graph, by contrast, the quality
node is entered on the errored state and the error handler retries from
classify; see the counterexample.) -/
theorem C6_amended_agent_engine_halts_on_handler_error :
    ∀ (os : Nat → JiraCSAgent.AgentOracle) (fuel k : Nat) (s : JiraCSAgent.AgentState)
      (visited : List String) (e : JiraCSAgent.Err),
      (os k).handlerR = .error e →
      JiraCSAgent.runLoop os (fuel + 1) k "handle_jira_simple" s visited =
        .finished (JiraCSAgent.handleWith "jira_simple_resolution" s (.error e))
          (visited ++ ["handle_jira_simple"]) ∧
      ("evaluate_result" ∉ visited →
        "evaluate_result" ∉ visited ++ ["handle_jira_simple"]) := by
  intro os fuel k s visited e h
  constructor
  · simp [JiraCSAgent.runLoop, JiraCSAgent.execNode, JiraCSAgent.handleWith, h]
  · intro hnot
    simp [List.mem_append, hnot]

/-- Witness for C6 amended, at a concrete failing handler step. -/
theorem C6_amended_witness :
    JiraCSAgent.runLoop (fun _ => JiraCSAgent.failOracleAgent) 8 2 "handle_jira_simple"
        JiraCSAgent.agentInit [] =
      .finished
        (JiraCSAgent.handleWith "jira_simple_resolution" JiraCSAgent.agentInit
          (.error ⟨"FatalPipelineError", "jira-simple-handler"⟩))
        ["handle_jira_simple"] ∧
    "evaluate_result" ∉ ([] : List String) ++ ["handle_jira_simple"] :=
  ⟨(C6_amended_agent_engine_halts_on_handler_error (fun _ => JiraCSAgent.failOracleAgent)
      7 2 JiraCSAgent.agentInit [] ⟨"FatalPipelineError", "jira-simple-handler"⟩ rfl).1,
    (C6_amended_agent_engine_halts_on_handler_error (fun _ => JiraCSAgent.failOracleAgent)
      7 2 JiraCSAgent.agentInit [] ⟨"FatalPipelineError", "jira-simple-handler"⟩ rfl).2
      (by simp)⟩

/-- C7 counterexample: a confidence-0.9 classification with the unmapped
category `technical` makes `routeToHandler` return the raw category; the
conditional-edge mapping has no entry for it, the engine throws, and
`processEmail` catches the throw and returns the initial state with a
routing error recorded — the run does fail with a routing error instead of
selecting the general handler. -/
theorem C7_counterexample :
    (JiraCSAgent.processEmail (fun _ => JiraCSAgent.unmappedOracle)
        JiraCSAgent.agentInit).1.error
      = some ⟨"工作流程執行失敗: 條件結果沒有對應的路由", "orchestrator"⟩ := by
  have hge : ¬ ((9 : ℚ) / 10 < 3 / 5) := by norm_num
  simp [JiraCSAgent.processEmail, JiraCSAgent.maxSteps, JiraCSAgent.runLoop,
    JiraCSAgent.execNode, JiraCSAgent.classifyEmail, JiraCSAgent.condEdge,
    JiraCSAgent.staticEdge, JiraCSAgent.routeToHandler, JiraCSAgent.classifyMapping,
    JiraCSAgent.unmappedOracle, JiraCSAgent.agentInit, hge]

/-- C7 amended: routing is total for a missing classification (general
handler), for any low-confidence classification (general handler, which is
mapped), and for the three mapped categories at any confidence; only a
high-confidence classification with a category outside the table makes the
run fail with a routing error captured in the state. -/
theorem C7_amended_routing_total_on_mapped_or_low_confidence :
    (∀ s : JiraCSAgent.AgentState, s.classification = none →
        JiraCSAgent.classifyMapping (JiraCSAgent.routeToHandler s)
          = some "handle_general") ∧
    (∀ (s : JiraCSAgent.AgentState) (c : JiraCSAgent.Classification),
        s.classification = some c → c.confidence < 3 / 5 →
        JiraCSAgent.classifyMapping (JiraCSAgent.routeToHandler s)
          = some "handle_general") ∧
    (∀ (s : JiraCSAgent.AgentState) (c : JiraCSAgent.Classification),
        s.classification = some c →
        (c.category = "jira_simple" ∨ c.category = "jira_complex" ∨
          c.category = "general") →
        (JiraCSAgent.classifyMapping (JiraCSAgent.routeToHandler s)).isSome = true) := by
  refine ⟨?_, ?_, ?_⟩
  · intro s hc
    simp [JiraCSAgent.routeToHandler, hc, JiraCSAgent.classifyMapping]
  · intro s c hc hlt
    simp [JiraCSAgent.routeToHandler, hc, hlt, JiraCSAgent.classifyMapping]
  · intro s c hc hcat
    by_cases hlt : c.confidence < 3 / 5
    · simp [JiraCSAgent.routeToHandler, hc, hlt, JiraCSAgent.classifyMapping]
    · rcases hcat with h | h | h <;>
        simp [JiraCSAgent.routeToHandler, hc, hlt, JiraCSAgent.classifyMapping, h]

/-- Witness for C7 amended: no classification, the 0.59 mapped
classification, and a full-confidence mapped classification. -/
theorem C7_amended_witness :
    JiraCSAgent.classifyMapping (JiraCSAgent.routeToHandler JiraCSAgent.agentInit)
      = some "handle_general" ∧
    JiraCSAgent.classifyMapping (JiraCSAgent.routeToHandler JiraCSAgent.agentState59)
      = some "handle_general" ∧
    (JiraCSAgent.classifyMapping (JiraCSAgent.routeToHandler
        { JiraCSAgent.agentInit with
            classification := some ⟨"jira_complex", 1, "loga", ["log"], ""⟩ })).isSome
      = true :=
  ⟨C7_amended_routing_total_on_mapped_or_low_confidence.1 JiraCSAgent.agentInit rfl,
    C7_amended_routing_total_on_mapped_or_low_confidence.2.1 JiraCSAgent.agentState59
      ⟨"jira_simple", 59 / 100, "unsure", [], ""⟩ rfl (by norm_num),
    C7_amended_routing_total_on_mapped_or_low_confidence.2.2
      { JiraCSAgent.agentInit with
          classification := some ⟨"jira_complex", 1, "loga", ["log"], ""⟩ }
      ⟨"jira_complex", 1, "loga", ["log"], ""⟩ rfl (Or.inr (Or.inl rfl))⟩

/-- C8 counterexample: the finalizer on an empty draft does fail
(`buildJiraResponse` yields none, the error flag and the message are set —
there is no `MissingResponseError` type; the message is Failed to build
final response), but the failure is not routed to the error terminal: the
static edge continues to the delivery node `send_to_jira`, not to
`handle_error`. -/
theorem C8_counterexample :
    JiraCSServer.buildJiraResponse JiraCSServer.emptyResponseTerminal = none ∧
    JiraCSServer.c8s1.has_error = true ∧
    JiraCSServer.c8s1.error_message = some "Failed to build final response" ∧
    (JiraCSServer.stepRun JiraCSServer.Node.finalize_response
        JiraCSServer.emptyResponseTerminal JiraCSServer.mockOracle 7).2
      = some JiraCSServer.Node.send_to_jira ∧
    some JiraCSServer.Node.send_to_jira ≠ some JiraCSServer.Node.handle_error := by
  decide

/-- C8 amended: invoking the finalizer on a state with an empty
`current_response` (and no final output yet) records the failure — error
flag set, message Failed to build final response — but the graph then
continues over the static edge into the delivery node, which refuses to
send (no final output) and flows to END with the error still set; the
error-handling node is never entered on this path. -/
theorem C8_amended_finalizer_failure_continues_to_delivery :
    ∀ (s : JiraCSServer.WorkflowState) (o : JiraCSServer.Oracle) (t : Nat),
      s.current_response = "" → s.final_output = none →
      (JiraCSServer.stepRun JiraCSServer.Node.finalize_response s o t).1.has_error = true ∧
      (JiraCSServer.stepRun JiraCSServer.Node.finalize_response s o t).1.error_message
        = some "Failed to build final response" ∧
      (JiraCSServer.stepRun JiraCSServer.Node.finalize_response s o t).2
        = some JiraCSServer.Node.send_to_jira ∧
      (JiraCSServer.stepRun JiraCSServer.Node.send_to_jira
          (JiraCSServer.stepRun JiraCSServer.Node.finalize_response s o t).1 o
          (t + 1)).1.has_error = true ∧
      (JiraCSServer.stepRun JiraCSServer.Node.send_to_jira
          (JiraCSServer.stepRun JiraCSServer.Node.finalize_response s o t).1 o
          (t + 1)).2 = some JiraCSServer.Node.done := by
  intro s o t h1 h2
  have hb : JiraCSServer.buildJiraResponse s = none := by
    simp [JiraCSServer.buildJiraResponse, h1]
  have hpatch : JiraCSServer.nodePatch JiraCSServer.Node.finalize_response s o t =
      { error_message := some (some "Failed to build final response")
        has_error := some true
        next_action := some "error" } := by
    simp [JiraCSServer.nodePatch, JiraCSServer.finalizeResponseNode, hb]
  have hfo : (JiraCSServer.stepRun JiraCSServer.Node.finalize_response s o t).1.final_output
      = none := by
    simp [JiraCSServer.stepRun, hpatch, JiraCSServer.mergeState, h2, Option.orElse]
  refine ⟨?_, ?_, rfl, ?_, rfl⟩
  · simp [JiraCSServer.stepRun, hpatch, JiraCSServer.mergeState]
  · simp [JiraCSServer.stepRun, hpatch, JiraCSServer.mergeState]
  · show (JiraCSServer.mergeState
        (JiraCSServer.stepRun JiraCSServer.Node.finalize_response s o t).1
        (JiraCSServer.nodePatch JiraCSServer.Node.send_to_jira
          (JiraCSServer.stepRun JiraCSServer.Node.finalize_response s o t).1 o
          (t + 1))).has_error = true
    rw [show JiraCSServer.nodePatch JiraCSServer.Node.send_to_jira
        (JiraCSServer.stepRun JiraCSServer.Node.finalize_response s o t).1 o (t + 1)
        = JiraCSServer.sendToJiraNode
            (JiraCSServer.stepRun JiraCSServer.Node.finalize_response s o t).1 o.sendO
      from rfl]
    rw [JiraCSServer.sendToJiraNode.eq_def, hfo]
    simp [JiraCSServer.mergeState]

/-- Witness for C8 amended, at the concrete empty-draft terminal state. -/
theorem C8_amended_witness :
    (JiraCSServer.stepRun JiraCSServer.Node.finalize_response
        JiraCSServer.emptyResponseTerminal JiraCSServer.mockOracle 7).1.has_error = true ∧
    (JiraCSServer.stepRun JiraCSServer.Node.finalize_response
        JiraCSServer.emptyResponseTerminal JiraCSServer.mockOracle 7).2
      = some JiraCSServer.Node.send_to_jira :=
  ⟨(C8_amended_finalizer_failure_continues_to_delivery
      JiraCSServer.emptyResponseTerminal JiraCSServer.mockOracle 7 rfl rfl).1,
    (C8_amended_finalizer_failure_continues_to_delivery
      JiraCSServer.emptyResponseTerminal JiraCSServer.mockOracle 7 rfl rfl).2.2.1⟩

namespace JiraCSAgent

/-- The visited-node count of the engine loop is bounded by the fuel it is
given: each iteration appends at most one node. -/
theorem runLoop_visited_length_le (os : Nat → AgentOracle) :
    ∀ (fuel k : Nat) (node : String) (s : AgentState) (visited : List String),
      ((runLoop os fuel k node s visited).visited).length ≤ visited.length + fuel := by
  intro fuel
  induction fuel with
  | zero =>
      intro k node s visited
      simp [runLoop, RunOutcome.visited]
  | succ m ih =>
      intro k node s visited
      simp only [runLoop]
      by_cases hEnd : node = "END"
      · simp [hEnd, RunOutcome.visited]
      · simp only [if_neg hEnd]
        cases hex : execNode node s (os k) with
        | none =>
            simp [RunOutcome.visited]
        | some s1 =>
            simp only []
            by_cases herr : s1.error.isSome = true ∧ node ≠ "START" ∧ node ≠ "END"
            · simp [herr, RunOutcome.visited]
            · simp only [if_neg herr]
              cases hce : condEdge node s1 with
              | some oo =>
                  cases oo with
                  | some nxt =>
                      have h := ih (k + 1) nxt s1 (visited ++ [node])
                      simp only [List.length_append, List.length_singleton] at h
                      simpa using Nat.le_trans h (by omega)
                  | none =>
                      simp [RunOutcome.visited]
              | none =>
                  cases hse : staticEdge node with
                  | some nxt =>
                      have h := ih (k + 1) nxt s1 (visited ++ [node])
                      simp only [List.length_append, List.length_singleton] at h
                      simpa using Nat.le_trans h (by omega)
                  | none =>
                      have h := ih (k + 1) "END" s1 (visited ++ [node])
                      simp only [List.length_append, List.length_singleton] at h
                      simpa using Nat.le_trans h (by omega)

/-- The node list `processEmail` reports is the one the loop visited. -/
theorem processEmail_visited (os : Nat → AgentOracle) (init : AgentState) :
    (processEmail os init).2 = (runLoop os maxSteps 0 "START" init []).visited := by
  unfold processEmail
  cases hr : runLoop os maxSteps 0 "START" init [] with
  | finished s v => simp [RunOutcome.visited]
  | thrown m v => simp [RunOutcome.visited]

end JiraCSAgent

/-- C9: the engine budget is the literal 10 (`maxSteps`), independent of any
retry counter, and every `processEmail` run executes at most that many node
steps — the loop is structurally fuel-bounded, so no execution of the
cyclic part of the graph can run forever. -/
theorem C9_engine_step_budget :
    JiraCSAgent.maxSteps = 10 ∧
    ∀ (os : Nat → JiraCSAgent.AgentOracle) (init : JiraCSAgent.AgentState),
      (JiraCSAgent.processEmail os init).2.length ≤ JiraCSAgent.maxSteps := by
  refine ⟨rfl, ?_⟩
  intro os init
  have h := JiraCSAgent.runLoop_visited_length_le os JiraCSAgent.maxSteps 0 "START" init []
  rw [JiraCSAgent.processEmail_visited]
  simpa using h
